import Mathlib

/-!
Shallow embedding of the FastAPI practice application
(src/main.py, src/model/items.py, src/model/model_name.py, src/model/users.py).

Modelling conventions:
* Python floats are modelled as rationals (`Rat`); no claim depends on
  floating-point rounding.
* A Python runtime value returned by a handler is a `Py` value: strings,
  numbers, booleans, None, lists, string-keyed dicts, the one int-keyed dict
  (`dict[int, float]` in create_index_weights), pydantic model instances
  (tagged with the class name and their field dict), and starlette `Response`
  objects (tagged with the class name and their payload).
* A Python `set[str]` is modelled by its contents in insertion order
  (a duplicate-free `List String`).
* `datetime`, `timedelta` and `time` are modelled as integers (a point or
  span in seconds); the only operations used are `+` and `-`.
* pydantic validation of a request body is a function from a raw input record
  to `Except (List String) Model`; the framework turns a validation error into
  an HTTP 422 response without running the handler body, which the
  `route_*` functions reproduce.
-/

namespace PracticeFastApi

/-- Python runtime values as returned by the handlers. -/
inductive Py where
  | pStr : String → Py
  | pInt : Int → Py
  | pRat : Rat → Py
  | pBool : Bool → Py
  | pNone : Py
  | pList : List Py → Py
  | pDict : List (String × Py) → Py
  | pIntDict : List (Int × Rat) → Py
  | pModel : String → List (String × Py) → Py
  | pResponse : String → Py → Py

/-- Result of a request after framework validation: either the handler output
or an HTTP 422 Unprocessable Entity carrying the validation error messages. -/
inductive HttpResult where
  | ok : Py → HttpResult
  | unprocessable : List String → HttpResult

/-- Whether the result is the HTTP 422 rejection. -/
def HttpResult.is422 : HttpResult → Bool
  | .ok _ => false
  | .unprocessable _ => true

/-- Truthiness of an optional string, as Python evaluates `if q:`. -/
def truthyStr : Option String → Bool
  | none => false
  | some s => !s.isEmpty

/-- Truthiness of an optional float, as Python evaluates `if item.tax:`. -/
def truthyRat : Option Rat → Bool
  | none => false
  | some t => !(t = 0)

/-- Value of an optional string field once serialized (None or the string). -/
def pyOfOptStr : Option String → Py
  | none => Py.pNone
  | some s => Py.pStr s

/-- Value of an optional float field once serialized. -/
def pyOfOptRat : Option Rat → Py
  | none => Py.pNone
  | some t => Py.pRat t

/-- Value of an optional int field once serialized. -/
def pyOfOptInt : Option Int → Py
  | none => Py.pNone
  | some n => Py.pInt n

/-- Contents of a Python `set` built from a list of strings: duplicates
dropped, insertion order kept. -/
def pySet (l : List String) : List String :=
  l.foldl (fun acc s => if s ∈ acc then acc else acc ++ [s]) []

/-- Clamp one bound of a Python slice to the actual range: negative indices
count from the end, and everything is clamped into [0, n]. -/
def sliceBound (n : Nat) (i : Int) : Nat :=
  if i < 0 then ((n : Int) + i).toNat else min n i.toNat

/-- Python list slicing `l[a:b]`. -/
def pySlice {α : Type} (l : List α) (a b : Int) : List α :=
  (l.take (sliceBound l.length b)).drop (sliceBound l.length a)

/-! ### src/model/model_name.py -/

/-- Enum `ModelName(str, Enum)` with exactly four members. -/
inductive ModelName where
  | telecentro
  | movistar
  | claro
  | fibertel
deriving DecidableEq

/-- String value of each enum member. -/
def ModelName.value : ModelName → String
  | .telecentro => "telecentro"
  | .movistar => "movistar"
  | .claro => "claro"
  | .fibertel => "fibertel"

/-- Framework parsing of a path parameter annotated `ModelName`: the raw
string must equal the value of one of the four members. -/
def ModelName.fromStr (s : String) : Option ModelName :=
  if s = "telecentro" then some .telecentro
  else if s = "movistar" then some .movistar
  else if s = "claro" then some .claro
  else if s = "fibertel" then some .fibertel
  else none

/-! ### src/model/users.py and the import in src/main.py line 13 -/

/-- Model `User` from src/model/users.py. -/
structure User where
  username : String
  full_name : Option String

/-- The names bound at top level of src/model/users.py: only `User`. -/
def usersModuleDefines : List String := ["User"]

/-- The names src/main.py line 13 imports from model.users. -/
def mainImportsFromUsers : List String := ["User", "UserIn", "UserOut"]

/-- Whether the import statement of src/main.py line 13 can succeed: each
name it imports must be bound in the users module. -/
def usersImportOk : Bool :=
  mainImportsFromUsers.all (fun n => usersModuleDefines.contains n)

/-! ### src/model/items.py -/

/-- Submodel `Image`. `HttpUrl` is modelled as a string whose validity is the
scheme check below. -/
structure Image where
  url : String
  name : String

/-- Validity of an `HttpUrl` field: the URL must start with http or https. -/
def isHttpUrl (s : String) : Bool :=
  s.startsWith "http://" || s.startsWith "https://"

/-- Validated `Item` instance (all field constraints hold). -/
structure Item where
  name : String
  description : Option String
  price : Rat
  tax : Option Rat
  tags : List String
  set_tags : List String
  image : Option Image

/-- Raw JSON body offered for validation as an `Item`; `none` marks an absent
optional field, which takes the declared default. -/
structure ItemInput where
  name : String
  description : Option String
  price : Rat
  tax : Option Rat
  tags : Option (List String)
  set_tags : Option (List String)
  image : Option Image

/-- Class-level default of field `tags`: the empty list. -/
def tagsDefault : List String := []

/-- Class-level default of field `set_tags`, written `set(tags)` in the class
body: it is computed once, at class definition time, from the class-level
`tags` default, hence is the empty set. -/
def setTagsDefault : List String := pySet tagsDefault

/-- The price constraint `Field(gt=0)`. -/
def priceOk (p : Rat) : Bool := 0 < p

/-- Validation errors of the `description` field: `Field(max_length=300)`,
absent means the default None and no check. -/
def descriptionErrors (inp : ItemInput) : List String :=
  match inp.description with
  | some d => if 300 < d.length then ["description: at most 300 characters"] else []
  | none => []

/-- Validation errors of the `price` field. -/
def priceErrors (inp : ItemInput) : List String :=
  if priceOk inp.price then [] else ["price: must be greater than zero"]

/-- Validation errors of the `image` submodel field. -/
def imageErrors (inp : ItemInput) : List String :=
  match inp.image with
  | some im => if isHttpUrl im.url then [] else ["image.url: not a valid url"]
  | none => []

/-- All validation errors pydantic collects for an `Item` body. -/
def itemErrors (inp : ItemInput) : List String :=
  descriptionErrors inp ++ priceErrors inp ++ imageErrors inp

/-- pydantic validation of an `Item` body: every field constraint must pass;
absent optional fields take their declared defaults. -/
def validateItem (inp : ItemInput) : Except (List String) Item :=
  if itemErrors inp = [] then
    .ok {
      name := inp.name
      description := inp.description
      price := inp.price
      tax := inp.tax
      tags := inp.tags.getD tagsDefault
      set_tags := match inp.set_tags with
        | some l => pySet l
        | none => setTagsDefault
      image := inp.image
    }
  else .error (itemErrors inp)

/-- Field dict of an `Image`, as produced inside `item.dict()`. -/
def imageFields (im : Image) : List (String × Py) :=
  [("url", Py.pStr im.url), ("name", Py.pStr im.name)]

/-- Field dict of an `Item`, as produced by `item.dict()`: the fields in
declaration order. -/
def itemFields (it : Item) : List (String × Py) :=
  [("name", Py.pStr it.name),
   ("description", pyOfOptStr it.description),
   ("price", Py.pRat it.price),
   ("tax", pyOfOptRat it.tax),
   ("tags", Py.pList (it.tags.map Py.pStr)),
   ("set_tags", Py.pList (it.set_tags.map Py.pStr)),
   ("image", match it.image with
     | none => Py.pNone
     | some im => Py.pDict (imageFields im))]

/-- An `Item` model instance as a runtime value. -/
def itemPy (it : Item) : Py := Py.pModel "Item" (itemFields it)

/-- Field dict of a `User`. -/
def userFields (u : User) : List (String × Py) :=
  [("username", Py.pStr u.username), ("full_name", pyOfOptStr u.full_name)]

/-- Model `Offer` from src/model/items.py. -/
structure Offer where
  name : String
  description : Option String
  price : Rat
  items : List Item

/-- An `Offer` model instance as a runtime value. -/
def offerPy (o : Offer) : Py :=
  Py.pModel "Offer"
    [("name", Py.pStr o.name),
     ("description", pyOfOptStr o.description),
     ("price", Py.pRat o.price),
     ("items", Py.pList (o.items.map itemPy))]

/-! ### Handlers of src/main.py that claims address individually -/

/-- Handler body of `create_item` (POST /items5/): `item.dict()`, plus key
`price_with_tax` when `if item.tax:` is truthy. -/
def create_item (item : Item) : List (String × Py) :=
  let item_dict := itemFields item
  if truthyRat item.tax then
    item_dict ++ [("price_with_tax", Py.pRat (item.price + item.tax.getD 0))]
  else
    item_dict

/-- Handler body of `update_item` (PUT /items6/): the dict
`take item_id plus the unpacked item.dict()`. -/
def update_item (item_id : Int) (item : Item) : List (String × Py) :=
  ("item_id", Py.pInt item_id) :: itemFields item

/-- Handler body of `get_model` (GET /models/): the dict with the enum
member under key model_name. -/
def get_model (model_name : ModelName) : Py :=
  Py.pDict [("model_name", Py.pStr model_name.value)]

/-- Handler body of `read_user_item` (GET /items4/): echoes both parameters. -/
def read_user_item (item_id : String) (needy : String) : Py :=
  Py.pDict [("item_id", Py.pStr item_id), ("needy", Py.pStr needy)]

/-- Route POST /items5/: the framework validates the `Item` body first; a
validation failure is answered with 422 and the handler body never runs. -/
def route_create_item (inp : ItemInput) : HttpResult :=
  match validateItem inp with
  | .ok item => .ok (Py.pDict (create_item item))
  | .error errs => .unprocessable errs

/-- Route PUT /items6/: same body validation in front of `update_item`. -/
def route_update_item (item_id : Int) (inp : ItemInput) : HttpResult :=
  match validateItem inp with
  | .ok item => .ok (Py.pDict (update_item item_id item))
  | .error errs => .unprocessable errs

/-- Route GET /models/: the framework parses the path parameter as a
`ModelName`; any string outside the enum is rejected with 422. -/
def route_get_model (s : String) : HttpResult :=
  match ModelName.fromStr s with
  | some m => .ok (get_model m)
  | none => .unprocessable ["model_name: not a valid enumeration member"]

/-- Route GET /items4/: `needy` is a required query parameter with no
default, so the framework rejects a request that omits it with 422. -/
def route_read_user_item (item_id : String) (needy : Option String) : HttpResult :=
  match needy with
  | some n => .ok (read_user_item item_id n)
  | none => .unprocessable ["needy: field required"]

/-! ### The whole application

`Request` has one constructor per route of src/main.py, carrying the inputs
of the handler after framework binding and validation. The two routes
POST /user2/ and POST /user3/ are not representable: their handlers use the
names `UserIn` and `UserOut`, which src/model/users.py does not define (so
the import at src/main.py line 13 fails) and those handlers are not
well-defined.
`handle` is the application step: given a request and the module-level state
(the list `fake_items_db`, the only module-level data), it yields the
returned value and the state after the request. -/

/-- Module-level state: the contents of the list `fake_items_db`. -/
abbrev Db := List (List (String × Py))

/-- Initial value of `fake_items_db` (src/main.py line 17). -/
def fake_items_db : Db :=
  [[("item_name", Py.pStr "Foo")],
   [("item_name", Py.pStr "Bar")],
   [("item_name", Py.pStr "Baz")]]

/-- One valid request to any route of the application (user2/user3 apart,
see above). -/
inductive Request where
  | root
  | read_item (item_id : Int)
  | get_model (model_name : ModelName)
  | read_item2 (skip limit : Int)
  | read_item3 (item_id : String) (q : Option String)
  | read_item4 (item_id : String) (q : Option String) (short : Bool)
  | read_user_item (item_id : String) (needy : String)
  | create_item (item : Item)
  | update_item (item_id : Int) (item : Item)
  | update_item7 (item_id : Int) (item : Item) (q : Option String)
  | read_items8 (q : Option String)
  | read_items9 (q : Option String)
  | read_items10 (q : Option String)
  | read_items11 (q : String)
  | read_items12 (q : String)
  | read_items13 (q : Option (List String))
  | read_items14 (q : List String)
  | read_items15 (q : Option String)
  | read_items16 (q : Option String)
  | read_items17 (q : Option String)
  | read_items18 (hidden_query : Option String)
  | read_items19 (item_id : Int) (q : Option String)
  | read_items20 (item_id : Int) (q : String)
  | update_item21 (item_id : Int) (q : Option String) (item : Option Item)
  | update_item22 (item_id : Int) (item : Item) (user : User)
  | update_item23 (item_id : Int) (item : Item) (user : User) (importance : Int)
  | update_item24 (item_id : Int) (item : Item)
  | update_item25 (item_id : Int) (item : Item)
  | create_offer (offer : Offer)
  | create_index_weights (weights : List (Int × Rat))
  | update_item26 (item_id : Int) (item : Item)
  | read_items27 (item_id : String) (start_datetime end_datetime process_after : Int)
      (repeat_at : Option Int)
  | read_items28 (ads_id : Option String)
  | read_items29 (user_agent : Option String)
  | read_items30 (strange_header : Option String)
  | read_items31 (x_token : Option (List String))
  | create_item32 (item : Item)
  | read_items33
  | create_item34 (item : Item)
  | read_items35
  | get_portal (teleport : Bool)

/-- The two Item literals returned by read_items33 and read_items35:
`Item(name="Foo", price=35.4)` and `Item(name="Bar", price=62)`, the other
fields taking their declared defaults. -/
def sampleItems : List Item :=
  [⟨"Foo", none, 35.4, none, tagsDefault, setTagsDefault, none⟩,
   ⟨"Bar", none, 62, none, tagsDefault, setTagsDefault, none⟩]

/-- The fixed results dict many query-parameter examples start from. -/
def fooBarResults : List (String × Py) :=
  [("items", Py.pList [Py.pDict [("item_id", Py.pStr "Foo")],
                       Py.pDict [("item_id", Py.pStr "Bar")]])]

/-- The pattern `if q: results.update(about q)` shared by the query-parameter
examples: update with a fresh key appends it. -/
def addIfTruthy (d : List (String × Py)) (key : String) (q : Option String) :
    List (String × Py) :=
  if truthyStr q then d ++ [(key, Py.pStr (q.getD ""))] else d

/-- One application step: run the handler of the request on the current
module state, returning the value the handler returns and the state after
the request. Each case is the body of the corresponding handler of
src/main.py. -/
def handle (r : Request) (db : Db) : Py × Db :=
  match r with
  | .root => (Py.pDict [("message", Py.pStr "Hello World")], db)
  | .read_item item_id => (Py.pDict [("item_id", Py.pInt item_id)], db)
  | .get_model model_name => (get_model model_name, db)
  | .read_item2 skip limit =>
      (Py.pList ((pySlice db skip (skip + limit)).map Py.pDict), db)
  | .read_item3 item_id q =>
      (Py.pDict (addIfTruthy [("item_id", Py.pStr item_id)] "q" q), db)
  | .read_item4 item_id q short =>
      (Py.pDict (
        let item := addIfTruthy [("item_id", Py.pStr item_id)] "q" q
        if !short then
          item ++ [("description",
            Py.pStr "This is an amazing item that has a long description")]
        else item), db)
  | .read_user_item item_id needy => (read_user_item item_id needy, db)
  | .create_item item => (Py.pDict (create_item item), db)
  | .update_item item_id item => (Py.pDict (update_item item_id item), db)
  | .update_item7 item_id item q =>
      (Py.pDict (addIfTruthy (update_item item_id item) "q" q), db)
  | .read_items8 q => (Py.pDict (addIfTruthy fooBarResults "q" q), db)
  | .read_items9 q => (Py.pDict (addIfTruthy fooBarResults "q" q), db)
  | .read_items10 q => (Py.pDict (addIfTruthy fooBarResults "q" q), db)
  | .read_items11 q => (Py.pDict (addIfTruthy fooBarResults "q" (some q)), db)
  | .read_items12 q => (Py.pDict (addIfTruthy fooBarResults "q" (some q)), db)
  | .read_items13 q =>
      (Py.pDict [("q", match q with
        | none => Py.pNone
        | some l => Py.pList (l.map Py.pStr))], db)
  | .read_items14 q => (Py.pDict [("q", Py.pList (q.map Py.pStr))], db)
  | .read_items15 q => (Py.pDict (addIfTruthy fooBarResults "q" q), db)
  | .read_items16 q => (Py.pDict (addIfTruthy fooBarResults "q" q), db)
  | .read_items17 q => (Py.pDict (addIfTruthy fooBarResults "q" q), db)
  | .read_items18 hidden_query =>
      (Py.pDict (
        if truthyStr hidden_query then
          [("hidden_query", Py.pStr (hidden_query.getD ""))]
        else
          [("hidden_query", Py.pStr "Not found")]), db)
  | .read_items19 item_id q =>
      (Py.pDict (addIfTruthy [("item_id", Py.pInt item_id)] "q" q), db)
  | .read_items20 item_id q =>
      (Py.pDict (addIfTruthy [("item_id", Py.pInt item_id)] "q" (some q)), db)
  | .update_item21 item_id q item =>
      (Py.pDict (
        let results := addIfTruthy [("item_id", Py.pInt item_id)] "q" q
        match item with
        | some it => results ++ [("item", itemPy it)]
        | none => results), db)
  | .update_item22 item_id item user =>
      (Py.pDict [("item_id", Py.pInt item_id), ("item", itemPy item),
                 ("user", Py.pModel "User" (userFields user))], db)
  | .update_item23 item_id item user importance =>
      (Py.pDict [("item_id", Py.pInt item_id), ("item", itemPy item),
                 ("user", Py.pModel "User" (userFields user)),
                 ("importance", Py.pInt importance)], db)
  | .update_item24 item_id item =>
      (Py.pDict [("item_id", Py.pInt item_id), ("item", itemPy item)], db)
  | .update_item25 item_id item =>
      (Py.pDict [("item_id", Py.pInt item_id), ("item", itemPy item)], db)
  | .create_offer offer => (offerPy offer, db)
  | .create_index_weights weights => (Py.pIntDict weights, db)
  | .update_item26 item_id item =>
      (Py.pDict [("item_id", Py.pInt item_id), ("item", itemPy item)], db)
  | .read_items27 item_id start_datetime end_datetime process_after repeat_at =>
      (Py.pDict (
        let start_process := start_datetime + process_after
        let duration := end_datetime - start_process
        [("item_id", Py.pStr item_id),
         ("start_datetime", Py.pInt start_datetime),
         ("end_datetime", Py.pInt end_datetime),
         ("process_after", Py.pInt process_after),
         ("repeat_at", pyOfOptInt repeat_at),
         ("start_process", Py.pInt start_process),
         ("duration", Py.pInt duration)]), db)
  | .read_items28 ads_id => (Py.pDict [("ads_id", pyOfOptStr ads_id)], db)
  | .read_items29 user_agent => (Py.pDict [("User-Agent", pyOfOptStr user_agent)], db)
  | .read_items30 strange_header =>
      (Py.pDict [("strange_header", pyOfOptStr strange_header)], db)
  | .read_items31 x_token =>
      (Py.pDict [("X-Token values", match x_token with
        | none => Py.pNone
        | some l => Py.pList (l.map Py.pStr))], db)
  | .create_item32 item => (itemPy item, db)
  | .read_items33 => (Py.pList (sampleItems.map itemPy), db)
  | .create_item34 item => (itemPy item, db)
  | .read_items35 => (Py.pList (sampleItems.map itemPy), db)
  | .get_portal teleport =>
      (if teleport then
        Py.pResponse "RedirectResponse"
          (Py.pStr "https://www.youtube.com/watch?v=dQw4w9WgXcQ")
      else
        Py.pResponse "JSONResponse"
          (Py.pDict [("message", Py.pStr "Here\x27s your interdimensional portal.")]),
       db)

/-- Module state after running a sequence of requests from the initial
state. -/
def runSeq (reqs : List Request) : Db :=
  reqs.foldl (fun db r => (handle r db).2) fake_items_db

/-- The original claim of section 2 of the spec: a handler returns a plain
mapping or a model instance. -/
def dictOrModel : Py → Bool
  | .pDict _ => true
  | .pIntDict _ => true
  | .pModel _ _ => true
  | _ => false

/-- The amended return-shape discipline: a mapping, a model instance, a list
whose elements are mappings or model instances, or a Response object. -/
def validReturn : Py → Bool
  | .pDict _ => true
  | .pIntDict _ => true
  | .pModel _ _ => true
  | .pList l => l.all dictOrModel
  | .pResponse _ _ => true
  | _ => false

/-- The string values of the four `ModelName` members, in declaration
order. -/
def modelNameValues : List String := ["telecentro", "movistar", "claro", "fibertel"]

/-- A description of 301 characters, above the `max_length=300` bound. -/
def longDescription : String := String.mk (List.replicate 301 'a')

/-! ### Helper lemmas shared by the claim theorems -/

set_option maxRecDepth 4000 in
/-- The long sample description has 301 characters. -/
theorem longDescription_length : longDescription.length = 301 := rfl

/-- No handler changes the module state. -/
theorem handle_snd (r : Request) (db : Db) : (handle r db).2 = db := by
  cases r <;> rfl

/-- Folding the application step over any request sequence leaves any state
unchanged. -/
theorem foldl_handle_eq (reqs : List Request) (db : Db) :
    reqs.foldl (fun db r => (handle r db).2) db = db := by
  induction reqs generalizing db with
  | nil => rfl
  | cons r rest ih => rw [List.foldl_cons, handle_snd, ih]

/-- The state after any request sequence is the initial list. -/
theorem runSeq_eq (reqs : List Request) : runSeq reqs = fake_items_db :=
  foldl_handle_eq reqs fake_items_db

/-- Mapping dicts over a list yields elements that all satisfy the original
return-shape predicate. -/
theorem all_dictOrModel_map_pDict (l : List (List (String × Py))) :
    ((l.map Py.pDict).all dictOrModel) = true := by
  induction l with
  | nil => rfl
  | cons x t ih => simp [List.all_cons, dictOrModel, ih]

/-- A nonpositive price makes the collected validation errors nonempty. -/
theorem itemErrors_ne_nil_of_price_le (inp : ItemInput) (h : inp.price ≤ 0) :
    itemErrors inp ≠ [] := by
  have hp : priceOk inp.price = false := by
    simp [priceOk, not_lt.mpr h]
  simp [itemErrors, priceErrors, hp]

/-- An overlong description makes the collected validation errors
nonempty. -/
theorem itemErrors_ne_nil_of_long_description (inp : ItemInput) (d : String)
    (hd : inp.description = some d) (hlen : 300 < d.length) :
    itemErrors inp ≠ [] := by
  simp [itemErrors, descriptionErrors, hd, hlen]

/-- A nonempty error list forces the error branch of validation. -/
theorem validateItem_error (inp : ItemInput) (h : itemErrors inp ≠ []) :
    validateItem inp = .error (itemErrors inp) := by
  simp [validateItem, h]

/-! ### Claim theorems -/

/-- C1: a request body whose price is less than or equal to zero fails
validation of the `Item` model, so POST /items5/ and PUT /items6/ answer
HTTP 422 and the handler body is never run (the result is not an ok result);
with a price strictly greater than zero the price check passes (it
contributes no validation error). -/
theorem c1_price_gt_zero_validation (inp : ItemInput) :
    (inp.price ≤ 0 →
      (route_create_item inp).is422 = true ∧
      (∀ item_id : Int, (route_update_item item_id inp).is422 = true) ∧
      (∀ v : Py, route_create_item inp ≠ HttpResult.ok v)) ∧
    (0 < inp.price → priceErrors inp = []) := by
  constructor
  · intro h
    have hval := validateItem_error inp (itemErrors_ne_nil_of_price_le inp h)
    refine ⟨?_, fun item_id => ?_, fun v => ?_⟩ <;>
      simp [route_create_item, route_update_item, hval, HttpResult.is422]
  · intro h
    simp [priceErrors, priceOk, h]

/-- Witness for C1 at price -1 (rejected) and price 35.4 (price check
passes). -/
theorem c1_price_gt_zero_validation_witness :
    (route_create_item ⟨"Foo", none, -1, none, none, none, none⟩).is422 = true ∧
    priceErrors ⟨"Bar", none, 35.4, none, none, none, none⟩ = [] :=
  ⟨((c1_price_gt_zero_validation ⟨"Foo", none, -1, none, none, none, none⟩).1
      (by norm_num)).1,
   (c1_price_gt_zero_validation ⟨"Bar", none, 35.4, none, none, none, none⟩).2
      (by norm_num)⟩

/-- C2: src/main.py line 13 imports User, UserIn and UserOut from
model.users, but src/model/users.py binds only User; the import cannot
succeed, so the module does not load. -/
theorem c2_users_import_fails :
    usersImportOk = false ∧
    "UserIn" ∈ mainImportsFromUsers ∧ "UserIn" ∉ usersModuleDefines ∧
    "UserOut" ∈ mainImportsFromUsers ∧ "UserOut" ∉ usersModuleDefines := by
  decide

/-- C3: GET /models/ answers the dict with the echoed name exactly on the
four enumerated strings, and 422 on every other string. -/
theorem c3_model_name_enum (s : String) :
    (s ∈ modelNameValues →
      route_get_model s = HttpResult.ok (Py.pDict [("model_name", Py.pStr s)])) ∧
    (s ∉ modelNameValues → (route_get_model s).is422 = true) := by
  constructor
  · intro h
    simp [modelNameValues, List.mem_cons] at h
    rcases h with rfl | rfl | rfl | rfl <;> rfl
  · intro h
    simp [modelNameValues, List.mem_cons] at h
    push_neg at h
    obtain ⟨h1, h2, h3, h4⟩ := h
    simp [route_get_model, ModelName.fromStr, h1, h2, h3, h4, HttpResult.is422]

/-- Witness for C3: one member string accepted, one outside string
rejected. -/
theorem c3_model_name_enum_witness :
    route_get_model "telecentro" =
      HttpResult.ok (Py.pDict [("model_name", Py.pStr "telecentro")]) ∧
    (route_get_model "speedy").is422 = true :=
  ⟨(c3_model_name_enum "telecentro").1 (by decide),
   (c3_model_name_enum "speedy").2 (by decide)⟩

/-- C4: a present description longer than 300 characters fails validation of
the `Item` body, so the request is answered with 422; a description of at
most 300 characters, or an absent one, contributes no validation error. -/
theorem c4_description_max_length (inp : ItemInput) :
    (∀ d : String, inp.description = some d → 300 < d.length →
      (route_create_item inp).is422 = true ∧
      (∀ item_id : Int, (route_update_item item_id inp).is422 = true)) ∧
    (∀ d : String, inp.description = some d → d.length ≤ 300 →
      descriptionErrors inp = []) ∧
    (inp.description = none → descriptionErrors inp = []) := by
  refine ⟨fun d hd hlen => ?_, fun d hd hlen => ?_, fun hd => ?_⟩
  · have hval := validateItem_error inp
      (itemErrors_ne_nil_of_long_description inp d hd hlen)
    constructor
    · simp [route_create_item, hval, HttpResult.is422]
    · intro item_id
      simp [route_update_item, hval, HttpResult.is422]
  · simp [descriptionErrors, hd, not_lt.mpr hlen]
  · simp [descriptionErrors, hd]

/-- Witness for C4 at a 301-character description (rejected) and a short one
(no description error). -/
theorem c4_description_max_length_witness :
    (route_create_item ⟨"Foo", some longDescription, 1, none, none, none, none⟩).is422
      = true ∧
    descriptionErrors ⟨"Foo", some "ok", 1, none, none, none, none⟩ = [] :=
  ⟨((c4_description_max_length
      ⟨"Foo", some longDescription, 1, none, none, none, none⟩).1
      longDescription rfl (by rw [longDescription_length]; norm_num)).1,
   (c4_description_max_length ⟨"Foo", some "ok", 1, none, none, none, none⟩).2.1
      "ok" rfl (by decide)⟩

/-- C5: after any sequence of requests the module state still equals the
initial three-element list, which is exactly the literal of src/main.py
line 17; in particular GET /items/ leaves the list unchanged. -/
theorem c5_fake_items_db_immutable :
    (∀ reqs : List Request, runSeq reqs = fake_items_db) ∧
    (∀ skip limit : Int,
      (handle (Request.read_item2 skip limit) fake_items_db).2 = fake_items_db) ∧
    fake_items_db =
      [[("item_name", Py.pStr "Foo")],
       [("item_name", Py.pStr "Bar")],
       [("item_name", Py.pStr "Baz")]] :=
  ⟨runSeq_eq, fun skip limit => handle_snd (Request.read_item2 skip limit) fake_items_db, rfl⟩

/-- C6 counterexample: the handler of GET /portal with teleport false
returns a JSONResponse object, which is neither a plain mapping nor a
data-model instance. -/
theorem c6_portal_not_dict_or_model :
    dictOrModel (handle (Request.get_portal false) fake_items_db).1 = false := rfl

/-- C6 amended: for every route of the application (the two unloadable user
routes aside) and every valid request, the returned value is a plain
mapping, a data-model instance, a list whose elements are mappings or model
instances, or a Response object. -/
theorem c6_return_shapes (r : Request) (db : Db) :
    validReturn (handle r db).1 = true := by
  cases r
  case read_item2 skip limit =>
    simp [handle, validReturn, all_dictOrModel_map_pDict]
  case get_portal teleport => cases teleport <;> rfl
  all_goals rfl

/-- C7: GET /items4/ without the required query parameter needy is answered
with 422; with both parameters supplied the handler returns exactly the dict
echoing item_id and needy unchanged. -/
theorem c7_needy_required (item_id : String) :
    (route_read_user_item item_id none).is422 = true ∧
    ∀ needy : String,
      route_read_user_item item_id (some needy) =
        HttpResult.ok (Py.pDict
          [("item_id", Py.pStr item_id), ("needy", Py.pStr needy)]) :=
  ⟨rfl, fun _ => rfl⟩

/-- C8: every handler is a stateless deterministic function of its request:
the response to a request is the same after any two request histories, and
the request leaves the state it found unchanged. -/
theorem c8_handlers_stateless (hist1 hist2 : List Request) (r : Request) :
    (handle r (runSeq hist1)).1 = (handle r (runSeq hist2)).1 ∧
    (handle r (runSeq hist1)).2 = runSeq hist1 := by
  constructor
  · rw [runSeq_eq hist1, runSeq_eq hist2]
  · exact handle_snd r (runSeq hist1)

/-- C9: the response of POST /items5/ carries key price_with_tax with value
price plus tax exactly when the tax field is present and nonzero; with an
absent or zero tax the response is exactly item.dict(), whose keys are the
seven item fields and do not include price_with_tax. -/
theorem c9_price_with_tax (it : Item) :
    (∀ t : Rat, it.tax = some t → t ≠ 0 →
      create_item it = itemFields it ++ [("price_with_tax", Py.pRat (it.price + t))]) ∧
    ((it.tax = none ∨ it.tax = some 0) → create_item it = itemFields it) ∧
    (itemFields it).map Prod.fst =
      ["name", "description", "price", "tax", "tags", "set_tags", "image"] ∧
    ("price_with_tax" : String) ∉ (itemFields it).map Prod.fst := by
  refine ⟨fun t ht hne => ?_, fun h => ?_, rfl, by simp [itemFields]⟩
  · simp [create_item, truthyRat, ht, hne]
  · rcases h with h | h <;> simp [create_item, truthyRat, h]

/-- Witness for C9: an item with tax 3.2 gains price_with_tax 38.6, one with
tax None stays exactly item.dict(). -/
theorem c9_price_with_tax_witness :
    create_item ⟨"Foo", none, 35.4, some 3.2, [], [], none⟩ =
      itemFields ⟨"Foo", none, 35.4, some 3.2, [], [], none⟩ ++
        [("price_with_tax", Py.pRat (35.4 + 3.2))] ∧
    create_item ⟨"Bar", none, 62, none, [], [], none⟩ =
      itemFields ⟨"Bar", none, 62, none, [], [], none⟩ :=
  ⟨(c9_price_with_tax ⟨"Foo", none, 35.4, some 3.2, [], [], none⟩).1
      3.2 rfl (by norm_num),
   (c9_price_with_tax ⟨"Bar", none, 62, none, [], [], none⟩).2.1 (Or.inl rfl)⟩

/-- C10: an Item body without an explicit set_tags validates to an instance
whose set_tags is the class-level default, the empty set, whatever the tags
field of the same request holds. -/
theorem c10_set_tags_default (inp : ItemInput) (it : Item)
    (hnone : inp.set_tags = none) (hval : validateItem inp = .ok it) :
    it.set_tags = setTagsDefault ∧ setTagsDefault = [] := by
  refine ⟨?_, rfl⟩
  unfold validateItem at hval
  by_cases h : itemErrors inp = []
  · simp [h] at hval
    rw [← hval]
    simp [hnone]
  · simp [h] at hval

/-- Witness for C10: a body with tags supplied but set_tags absent validates
to an instance with empty set_tags. -/
theorem c10_set_tags_default_witness :
    Item.set_tags ⟨"Foo", none, 35.4, none, ["t1", "t2"], setTagsDefault, none⟩ =
      setTagsDefault ∧ setTagsDefault = [] :=
  c10_set_tags_default
    ⟨"Foo", none, 35.4, none, some ["t1", "t2"], none, none⟩
    ⟨"Foo", none, 35.4, none, ["t1", "t2"], setTagsDefault, none⟩
    rfl
    (by norm_num [validateItem, itemErrors, descriptionErrors, priceErrors,
      imageErrors, priceOk])

end PracticeFastApi
